import Mathlib

/-!
Shallow embedding of the connection lifecycle and wire-framing subsystem of
the mongo-go-driver topology package (src/x/mongo/driver/topology/connection.go).

Sockets are modelled as a stream of available bytes followed by an error kind,
contexts as the two facts the code inspects about them, and the cancellation
listener as the boolean that its StopListening method returns after the socket
operation has completed.
-/

namespace MongoConn

/-- Kind of error a socket read or write reports once the available bytes run
out: a timeout (a net.Error whose Timeout method returns true), an end of
file, or any other error. -/
inductive NetErrKind
  | timeout
  | eof
  | other
  deriving DecidableEq, Repr

/-- Whether the error kind satisfies the isCSOTTimeout test in connection.read,
which holds exactly for net errors whose Timeout method returns true. -/
def NetErrKind.isTimeout : NetErrKind → Bool
  | .timeout => true
  | _ => false

/-- The incoming side of a net.Conn: the bytes the socket will still deliver
before it next fails, and the kind of error it reports when they run out. -/
structure NetStream where
  avail : List Nat
  errKind : NetErrKind
  deriving DecidableEq, Repr

/-- Model of io.ReadFull into a buffer of length k: it delivers exactly k
bytes when that many are available, and otherwise delivers all remaining
bytes together with the error. -/
def readFull (s : NetStream) (k : Nat) : List Nat × Option NetErrKind × NetStream :=
  if k ≤ s.avail.length then (s.avail.take k, none, ⟨s.avail.drop k, s.errKind⟩)
  else (s.avail, some s.errKind, ⟨[], s.errKind⟩)

/-- Errors surfaced by the read and write paths of a connection. -/
inductive DriverErr
  | net (k : NetErrKind)
  | malformedLength (size : Int)
  | responseTooLarge
  | canceled
  | deadlineExceeded
  deriving DecidableEq, Repr

/-- Connection state constants, in the iota order of connection.go:
connDisconnected, connConnected, connInitialized. -/
def connDisconnected : Int := 0

/-- The connConnected state constant. -/
def connConnected : Int := 1

/-- The connInitialized state constant. -/
def connInitialized : Int := 2

/-- Compressor identifiers from the wiremessage package; noOp is the zero
value a fresh connection starts with. -/
inductive CompressorID
  | noOp
  | snappy
  | zlib
  | zstd
  deriving DecidableEq, Repr

/-- The part of the negotiated server description that connection.go reads:
the service identity under load balancing, the maximum message size, and the
advertised compressor names. -/
structure ServerDesc where
  serviceID : Option Nat := none
  maxMessageSize : Nat := 0
  compression : List String := []
  deriving DecidableEq, Repr

/-- The connection configuration fields that connection.go reads. -/
structure ConnectionConfig where
  loadBalanced : Bool := false
  hasHandshaker : Bool := true
  tlsPresent : Bool := false
  tlcpPresent : Bool := false
  compressors : List String := []
  zlibLevel : Option Int := none
  zstdLevel : Option Int := none
  getGenerationFn : Option (Option Nat → Nat) := none

/-- The connection struct fields that the embedded operations read or write.
The net.Conn pointer is modelled by whether it was set and whether its Close
method has been called. -/
structure Conn where
  state : Int := connInitialized
  ncPresent : Bool := false
  ncClosed : Bool := false
  desc : ServerDesc := {}
  compressor : CompressorID := .noOp
  zliblevel : Int := 0
  zstdLevel : Int := 0
  generation : Nat := 0
  driverConnectionID : Int := 0
  serverConnectionID : Option Int := none
  config : ConnectionConfig := {}
  awaitRemainingBytes : Option Int := none

/-- Model of connection.close: a compare-and-swap from connConnected to
connDisconnected, closing the socket only on the first successful swap. -/
def closeConn (c : Conn) : Conn :=
  if c.state = connConnected then
    { c with state := connDisconnected, ncClosed := c.ncPresent || c.ncClosed }
  else c

/-- Little-endian uint32 decoding of the first four bytes of a list, each
byte reduced mod 256, matching binary.LittleEndian.Uint32. -/
def leUInt32 (b : List Nat) : Nat :=
  b.getD 0 0 % 256 + 256 * (b.getD 1 0 % 256) + 65536 * (b.getD 2 0 % 256) +
    16777216 * (b.getD 3 0 % 256)

/-- The int32 reinterpretation of a uint32 value. -/
def int32OfUInt32 (u : Nat) : Int :=
  if u < 2 ^ 31 then (u : Int) else (u : Int) - 2 ^ 32

/-- The hard-coded default maximum message size (48000000) used before a
handshake has negotiated one. -/
def defaultMaxMessageSize : Nat := 48000000

/-- The maximum message size connection.parseWmSizeBytes enforces: the
negotiated value, or defaultMaxMessageSize when none has been negotiated. -/
def Conn.effectiveMaxMessageSize (c : Conn) : Nat :=
  if c.desc.maxMessageSize = 0 then defaultMaxMessageSize else c.desc.maxMessageSize

/-- The Error strings of the errors produced along the read path. -/
def errText : DriverErr → String
  | .malformedLength size => "malformed message length: " ++ toString size
  | .responseTooLarge => "length of read message too large"
  | .net _ => "network error"
  | .canceled => "context canceled"
  | .deadlineExceeded => "context deadline exceeded"

/-- Model of connection.parseWmSizeBytes: decode the 4-byte little-endian
prefix as an int32, reject values below 4 as malformed, and reject values
whose uint32 reading exceeds the effective maximum as too large. -/
def parseWmSizeBytes (c : Conn) (wmSizeBytes : List Nat) : Except DriverErr Int :=
  let u := leUInt32 wmSizeBytes
  let size := int32OfUInt32 u
  if size < 4 then .error (.malformedLength size)
  else if c.effectiveMaxMessageSize < u then .error .responseTooLarge
  else .ok size

/-- The outcome of connection.read: the bytes handed back, the error message,
the error, the updated connection, and the stream state after the bytes the
call consumed. -/
structure ReadResult where
  bytesRead : List Nat
  errMsg : String
  err : Option DriverErr
  conn : Conn
  stream : NetStream

/-- The body of connection.read before its deferred StopListening check: read
the 4-byte size prefix, parse it, then read the remaining size-4 body bytes
into a zero-initialized buffer of the declared size.  A timeout with zero
prefix bytes read marks the connection as awaiting 0 remaining bytes; a
timeout mid-body marks it with the exact count still outstanding. -/
def readCore (c : Conn) (s : NetStream) : ReadResult :=
  let r0 := readFull s 4
  let sizeBuf := r0.1
  let s1 := r0.2.2
  match r0.2.1 with
  | some k =>
      let c1 := if sizeBuf.length = 0 ∧ k.isTimeout = true then
          { c with awaitRemainingBytes := some 0 } else c
      ⟨[], "incomplete read of message header", some (.net k), c1, s1⟩
  | none =>
    match parseWmSizeBytes c sizeBuf with
    | .error e => ⟨[], errText e, some e, c, s1⟩
    | .ok size =>
      let r1 := readFull s1 (size.toNat - 4)
      let body := r1.1
      let s2 := r1.2.2
      let dst := sizeBuf ++ body ++ List.replicate (size.toNat - 4 - body.length) 0
      match r1.2.1 with
      | some k2 =>
          let remainingBytes : Int := size - 4 - body.length
          let c1 := if 0 < remainingBytes ∧ k2.isTimeout = true then
              { c with awaitRemainingBytes := some remainingBytes } else c
          ⟨dst, "incomplete read of full message", some (.net k2), c1, s2⟩
      | none => ⟨dst, "", none, c, s2⟩

/-- Model of connection.read including the deferred StopListening
reconciliation: when the cancellation listener aborted while the socket
operations themselves succeeded, the nil error is overwritten with
context.Canceled. -/
def connRead (c : Conn) (s : NetStream) (aborted : Bool) : ReadResult :=
  let r := readCore c s
  if aborted = true ∧ r.err = none then
    { r with errMsg := "unable to read server response", err := some .canceled }
  else r

/-- Model of connection.write: the socket write outcome followed by the
deferred StopListening reconciliation overwriting a nil error with
context.Canceled when the listener aborted. -/
def connWrite (sockErr : Option NetErrKind) (aborted : Bool) : Option DriverErr :=
  let err := sockErr.map DriverErr.net
  if aborted = true ∧ err = none then some .canceled else err

/-- The two facts about a context that the read and write wrappers consult:
whether its Err method reports context.Canceled, and whether a deadline was
attached. -/
structure Ctx where
  canceled : Bool := false
  deadlineUsed : Bool := false
  deriving DecidableEq, Repr

/-- Model of transformNetworkError on a non-nil original error. -/
def transformNetworkError (ctx : Ctx) (originalError : DriverErr)
    (contextDeadlineUsed : Bool) : DriverErr :=
  if ctx.canceled = true then .canceled
  else if contextDeadlineUsed = false then originalError
  else match originalError with
    | .net k => if k.isTimeout then .deadlineExceeded else originalError
    | _ => originalError

/-- A ConnectionError as surfaced by readWireMessage and writeWireMessage:
its message and the wrapped transformed error, if any. -/
structure ConnectionError where
  message : String
  wrapped : Option DriverErr := none
  deriving DecidableEq, Repr

/-- The outcome of connection.readWireMessage. -/
structure ReadWireResult where
  dst : Option (List Nat)
  err : Option ConnectionError
  conn : Conn
  stream : NetStream

/-- Model of connection.readWireMessage: reject when not connected, run read,
and on failure close the connection unless it was marked as awaiting
remaining bytes. -/
def readWireMessage (c : Conn) (ctx : Ctx) (s : NetStream) (aborted : Bool) :
    ReadWireResult :=
  if c.state ≠ connConnected then
    ⟨none, some ⟨"connection is closed", none⟩, c, s⟩
  else
    let r := connRead c s aborted
    match r.err with
    | some e =>
        let c1 := if r.conn.awaitRemainingBytes = none then closeConn r.conn else r.conn
        ⟨none, some ⟨r.errMsg, some (transformNetworkError ctx e ctx.deadlineUsed)⟩,
          c1, r.stream⟩
    | none => ⟨some r.bytesRead, none, r.conn, r.stream⟩

/-- The outcome of connection.writeWireMessage. -/
structure WriteWireResult where
  err : Option ConnectionError
  conn : Conn

/-- Model of connection.writeWireMessage: reject when not connected, write,
and close the connection on any write failure. -/
def writeWireMessage (c : Conn) (ctx : Ctx) (sockErr : Option NetErrKind)
    (aborted : Bool) : WriteWireResult :=
  if c.state ≠ connConnected then
    ⟨some ⟨"connection is closed", none⟩, c⟩
  else
    match connWrite sockErr aborted with
    | some e =>
        ⟨some ⟨"unable to write wire message to network",
          some (transformNetworkError ctx e ctx.deadlineUsed)⟩, closeConn c⟩
    | none => ⟨none, c⟩

/-- C1: on both the write and the read path the deferred StopListening check
runs after the socket call returns, and when the listener had aborted while
the socket operation itself succeeded, the nil error is overwritten with
context.Canceled, so the surfaced result is the cancellation error and never
success. -/
theorem cancellation_overrides_success :
    connWrite none true = some .canceled ∧
    ∀ (c : Conn) (s : NetStream),
      (readCore c s).err = none → (connRead c s true).err = some .canceled := by
  refine ⟨rfl, ?_⟩
  intro c s h
  simp [connRead, h]

/-- Witness for C1 at a concrete connection and a stream carrying a complete
minimal 4-byte message. -/
theorem cancellation_overrides_success_witness :
    (connRead { state := connConnected } ⟨[4, 0, 0, 0], .timeout⟩ true).err =
      some .canceled :=
  cancellation_overrides_success.2 { state := connConnected }
    ⟨[4, 0, 0, 0], .timeout⟩ (by decide)

/-- C2: when the 4-byte prefix declares total length 100 and the body read
fails with a timeout before any body byte arrives, readWireMessage leaves the
connection open (still connected) and sets awaitRemainingBytes to
96 = 100 - 4 - 0. -/
theorem timeout_after_prefix_marks_await_96 (c : Conn) (ctx : Ctx) (aborted : Bool)
    (hstate : c.state = connConnected)
    (hmax : 100 ≤ c.effectiveMaxMessageSize) :
    (readWireMessage c ctx ⟨[100, 0, 0, 0], .timeout⟩ aborted).conn.awaitRemainingBytes =
      some 96 ∧
    (readWireMessage c ctx ⟨[100, 0, 0, 0], .timeout⟩ aborted).conn.state =
      connConnected := by
  have hmax' : ¬ (c.effectiveMaxMessageSize < 100) := by omega
  simp [readWireMessage, connRead, readCore, readFull, parseWmSizeBytes, leUInt32,
    int32OfUInt32, hstate, hmax', NetErrKind.isTimeout]

/-- Witness for C2 at a fresh connected connection with no negotiated maximum. -/
theorem timeout_after_prefix_marks_await_96_witness :
    (readWireMessage { state := connConnected } {} ⟨[100, 0, 0, 0], .timeout⟩
        false).conn.awaitRemainingBytes = some 96 ∧
    (readWireMessage { state := connConnected } {} ⟨[100, 0, 0, 0], .timeout⟩
        false).conn.state = connConnected :=
  timeout_after_prefix_marks_await_96 { state := connConnected } {} false rfl
    (by decide)

/-- C6: when the decoded int32 size prefix is below 4 the read fails with the
malformed-length error, and when its uint32 reading exceeds the effective
maximum message size it fails with the response-too-large error; in both
cases the stream after the call has had exactly the 4 prefix bytes consumed,
so no body bytes were read. -/
theorem size_out_of_bounds_no_body_read (c : Conn) (s : NetStream) (aborted : Bool)
    (hlen : 4 ≤ s.avail.length) :
    (int32OfUInt32 (leUInt32 (s.avail.take 4)) < 4 →
      (connRead c s aborted).err =
        some (.malformedLength (int32OfUInt32 (leUInt32 (s.avail.take 4)))) ∧
      (connRead c s aborted).stream.avail = s.avail.drop 4) ∧
    (4 ≤ int32OfUInt32 (leUInt32 (s.avail.take 4)) →
      c.effectiveMaxMessageSize < leUInt32 (s.avail.take 4) →
      (connRead c s aborted).err = some .responseTooLarge ∧
      (connRead c s aborted).stream.avail = s.avail.drop 4) := by
  constructor
  · intro hsmall
    simp [connRead, readCore, readFull, hlen, parseWmSizeBytes, hsmall]
  · intro hbig hmax
    have hns : ¬ (int32OfUInt32 (leUInt32 (s.avail.take 4)) < 4) := by omega
    simp [connRead, readCore, readFull, hlen, parseWmSizeBytes, hns, hmax]

/-- Witness for C6: a prefix declaring length 1 is malformed, and a prefix
declaring the maximal positive int32 exceeds the default maximum. -/
theorem size_out_of_bounds_no_body_read_witness :
    ((connRead {} ⟨[1, 0, 0, 0], .timeout⟩ false).err = some (.malformedLength 1) ∧
      (connRead {} ⟨[1, 0, 0, 0], .timeout⟩ false).stream.avail = []) ∧
    ((connRead {} ⟨[255, 255, 255, 127], .timeout⟩ false).err =
        some .responseTooLarge ∧
      (connRead {} ⟨[255, 255, 255, 127], .timeout⟩ false).stream.avail = []) := by
  constructor
  · exact (size_out_of_bounds_no_body_read {} ⟨[1, 0, 0, 0], .timeout⟩ false
      (by decide)).1 (by decide)
  · exact (size_out_of_bounds_no_body_read {} ⟨[255, 255, 255, 127], .timeout⟩ false
      (by decide)).2 (by decide) (by decide)

/-- C7 counterexample: a size-prefix read that fails with only a timeout
error, but after two of the four prefix bytes were already delivered, does
not record the awaiting-remaining-bytes marker, and readWireMessage closes
the connection instead of leaving it open. -/
theorem prefix_timeout_partial_read_closes :
    (readWireMessage { state := connConnected } {} ⟨[100, 0], .timeout⟩
        false).conn.awaitRemainingBytes = none ∧
    (readWireMessage { state := connConnected } {} ⟨[100, 0], .timeout⟩
        false).conn.state = connDisconnected := by
  decide

/-- C7 amended: when the size-prefix read fails with a timeout before any
prefix byte has arrived, the connection records zero remaining bytes in the
awaiting-remaining-bytes marker and readWireMessage leaves it open. -/
theorem prefix_timeout_zero_bytes_leaves_open (c : Conn) (ctx : Ctx) (aborted : Bool)
    (hstate : c.state = connConnected) :
    (readWireMessage c ctx ⟨[], .timeout⟩ aborted).conn.awaitRemainingBytes =
      some 0 ∧
    (readWireMessage c ctx ⟨[], .timeout⟩ aborted).conn.state = connConnected := by
  simp [readWireMessage, connRead, readCore, readFull, hstate, NetErrKind.isTimeout]

/-- Witness for the amended C7 at a fresh connected connection. -/
theorem prefix_timeout_zero_bytes_leaves_open_witness :
    (readWireMessage { state := connConnected } {} ⟨[], .timeout⟩
        false).conn.awaitRemainingBytes = some 0 ∧
    (readWireMessage { state := connConnected } {} ⟨[], .timeout⟩
        false).conn.state = connConnected :=
  prefix_timeout_zero_bytes_leaves_open { state := connConnected } {} false rfl

/-- Model of setGenerationNumber: call the configured generation callback on
the current service identity, when one was provided. -/
def setGenerationNumber (c : Conn) : Conn :=
  match c.config.getGenerationFn with
  | some f => { c with generation := f c.desc.serviceID }
  | none => c

/-- Modelled from the spec: the default zlib compression level constant of
the wiremessage package, which is outside src/. -/
def defaultZlibLevel : Int := 6

/-- Modelled from the spec: the default zstd compression level constant of
the wiremessage package, which is outside src/. -/
def defaultZstdLevel : Int := 6

/-- Model of strings.ToLower on the ASCII names the compressor switch
compares against. -/
def stringsToLower (s : String) : String := String.mk (s.data.map Char.toLower)

/-- The switch body of the compressor-selection loop in connect: set the
compressor identifier and, for zlib and zstd, the configured or default
compression level. -/
def applyCompressorMethod (c : Conn) (method : String) : Conn :=
  match stringsToLower method with
  | "snappy" => { c with compressor := .snappy }
  | "zlib" =>
      { c with
        compressor := .zlib,
        zliblevel := c.config.zlibLevel.getD defaultZlibLevel }
  | "zstd" =>
      { c with
        compressor := .zstd,
        zstdLevel := c.config.zstdLevel.getD defaultZstdLevel }
  | _ => c

/-- The clientMethodLoop of connect: walk the client compressor list in
order and, at the first method also present in the server list, apply it and
stop. -/
def selectCompressor (c : Conn) : List String → List String → Conn
  | [], _ => c
  | method :: rest, server =>
      if method ∈ server then applyCompressorMethod c method
      else selectCompressor c rest server

/-- The handshake information the first handshake phase returns. -/
structure HandshakeInformation where
  desc : ServerDesc
  serverConnectionID : Option Int := none
  deriving DecidableEq, Repr

/-- Environment for a connect attempt: the outcomes of dialing, of the
secure-transport stages were they to run, and of the two handshake phases. -/
structure ConnectEnv where
  dialErr : Option String := none
  tlsErr : Option String := none
  tlcpErr : Option String := none
  handshakeResult : Except String HandshakeInformation := .ok { desc := {} }
  finishErr : Option String := none

/-- The cause of a failed handshake inside connect. -/
inductive HandshakeFailure
  | fromHello (e : String)
  | errLoadBalancedStateMismatch
  | finish (e : String)
  deriving DecidableEq, Repr

/-- The errors connect can return, each wrapping its cause as the source
wraps it in a ConnectionError with a distinguishing message. -/
inductive ConnectErr
  | failedToConnect (e : String)
  | failedTLS (e : String)
  | failedTLCP (e : String)
  | beforeHandshakeComplete (e : HandshakeFailure)
  deriving DecidableEq, Repr

/-- The error of the TLS stage of connect, when one occurs: the stage only
runs when a TLS configuration is present. -/
def tlsStageErr (c : Conn) (env : ConnectEnv) : Option ConnectErr :=
  if c.config.tlsPresent then env.tlsErr.map ConnectErr.failedTLS else none

/-- The error of the TLCP stage of connect, when one occurs: the stage only
runs when a TLCP configuration is present. -/
def tlcpStageErr (c : Conn) (env : ConnectEnv) : Option ConnectErr :=
  if c.config.tlcpPresent then env.tlcpErr.map ConnectErr.failedTLCP else none

/-- The handshake portion of connect: store the description delivered by the
first phase, flag the load-balanced state mismatch when the service identity
is missing, set the generation number under load balancing, run the second
phase, and on overall success select the compressor. -/
def handshakePhase (c : Conn) (env : ConnectEnv) : Conn × Option ConnectErr :=
  let step1 : Conn × Option HandshakeFailure :=
    match env.handshakeResult with
    | .error e => (c, some (.fromHello e))
    | .ok info =>
        let c1 := { c with
          desc := info.desc,
          serverConnectionID := info.serverConnectionID }
        if c1.config.loadBalanced = true ∧ info.desc.serviceID = none then
          (c1, some .errLoadBalancedStateMismatch)
        else (c1, none)
  let step2 : Conn × Option HandshakeFailure :=
    match step1.2 with
    | some e => (step1.1, some e)
    | none =>
        let c2 := if step1.1.config.loadBalanced then setGenerationNumber step1.1
          else step1.1
        match env.finishErr with
        | some e => (c2, some (.finish e))
        | none => (c2, none)
  match step2.2 with
  | some e => (step2.1, some (.beforeHandshakeComplete e))
  | none =>
      let c3 := step2.1
      let c4 := if c3.desc.compression = [] then c3
        else selectCompressor c3 c3.config.compressors c3.desc.compression
      (c4, none)

/-- The body of connect after the compare-and-swap: dial, then the optional
TLS and TLCP stages, then the handshake phases when a handshaker is
configured. -/
def connectBody (c : Conn) (env : ConnectEnv) : Conn × Option ConnectErr :=
  match env.dialErr with
  | some e => (c, some (.failedToConnect e))
  | none =>
    let c1 := { c with ncPresent := true }
    match tlsStageErr c1 env with
    | some e => (c1, some e)
    | none =>
      match tlcpStageErr c1 env with
      | some e => (c1, some e)
      | none =>
        if c1.config.hasHandshaker then handshakePhase c1 env else (c1, none)

/-- Model of connection.connect: the compare-and-swap from connInitialized to
connConnected, the body, and the deferred handler that on any error stores
connDisconnected and closes the net.Conn when one was created. -/
def connect (c : Conn) (env : ConnectEnv) : Conn × Option ConnectErr :=
  if c.state ≠ connInitialized then (c, none)
  else
    let c1 := { c with state := connConnected }
    let r := connectBody c1 env
    match r.2 with
    | some e =>
        ({ r.1 with
          state := connDisconnected,
          ncClosed := r.1.ncPresent || r.1.ncClosed }, some e)
    | none => (r.1, none)

/-- C5: under load-balanced configuration, when dialing and any secure
transport succeed and the first handshake phase succeeds but returns a
description without a service identity, connect fails with the fixed
load-balanced state-mismatch error and leaves the connection disconnected
with its socket closed. -/
theorem connect_lb_mismatch_disconnects (c : Conn) (env : ConnectEnv)
    (info : HandshakeInformation)
    (hstate : c.state = connInitialized)
    (hlb : c.config.loadBalanced = true)
    (hhs : c.config.hasHandshaker = true)
    (hdial : env.dialErr = none)
    (htls : env.tlsErr = none)
    (htlcp : env.tlcpErr = none)
    (hres : env.handshakeResult = .ok info)
    (hsid : info.desc.serviceID = none) :
    (connect c env).2 =
      some (.beforeHandshakeComplete .errLoadBalancedStateMismatch) ∧
    (connect c env).1.state = connDisconnected ∧
    (connect c env).1.ncClosed = true := by
  simp [connect, connectBody, handshakePhase, tlsStageErr, tlcpStageErr,
    hstate, hlb, hhs, hdial, htls, htlcp, hres, hsid]

/-- Witness for C5 at a concrete load-balanced connection whose handshake
response carries no service identity. -/
theorem connect_lb_mismatch_disconnects_witness :
    (connect { config := { loadBalanced := true } } {}).2 =
      some (.beforeHandshakeComplete .errLoadBalancedStateMismatch) ∧
    (connect { config := { loadBalanced := true } } {}).1.state =
      connDisconnected ∧
    (connect { config := { loadBalanced := true } } {}).1.ncClosed = true :=
  connect_lb_mismatch_disconnects { config := { loadBalanced := true } } {}
    { desc := {} } rfl rfl rfl rfl rfl rfl rfl rfl

/-- C8: the compressor-selection loop applies the first client-preferred
method that the server also advertises and ignores every later client entry;
in particular client preference zstd, zlib, snappy against a server
advertising zlib and snappy selects zlib with the configured or default
zlib level. -/
theorem compressor_first_match (c : Conn) :
    (∀ (pre post server : List String) (method : String),
      (∀ x ∈ pre, x ∉ server) → method ∈ server →
      selectCompressor c (pre ++ method :: post) server =
        applyCompressorMethod c method) ∧
    ((selectCompressor c ["zstd", "zlib", "snappy"] ["zlib", "snappy"]).compressor =
        .zlib ∧
      (selectCompressor c ["zstd", "zlib", "snappy"] ["zlib", "snappy"]).zliblevel =
        c.config.zlibLevel.getD defaultZlibLevel) := by
  constructor
  · intro pre post server method
    induction pre with
    | nil =>
        intro _ hmem
        simp [selectCompressor, hmem]
    | cons x rest ih =>
        intro hpre hmem
        have hx : x ∉ server := hpre x (List.mem_cons_self x rest)
        simp only [List.cons_append, selectCompressor, hx, if_false]
        exact ih (fun y hy => hpre y (List.mem_cons_of_mem x hy)) hmem
  · exact ⟨rfl, rfl⟩

/-- Witness for C8: the general first-match statement applied to the
concrete preference lists of the scenario. -/
theorem compressor_first_match_witness :
    selectCompressor {} ["zstd", "zlib", "snappy"] ["zlib", "snappy"] =
      applyCompressorMethod {} "zlib" :=
  (compressor_first_match {}).1 ["zstd"] ["snappy"] ["zlib", "snappy"] "zlib"
    (by decide) (by decide)

/-- A standard TLS configuration: the fields configureTLS reads. -/
structure TLSConfig where
  serverName : String := ""
  insecureSkipVerify : Bool := false
  deriving DecidableEq, Repr

/-- A TLCP national-algorithm configuration: the fields configureTLCP would
read; its SNI and verification handling is commented out in the source. -/
structure TLCPConfig where
  serverName : String := ""
  insecureSkipVerify : Bool := false
  deriving DecidableEq, Repr

/-- Environment for one secure-transport attempt: the outcome of the
handshake and of OCSP verification, were they to run. -/
structure SecureEnv where
  handshakeErr : Option String := none
  ocspErr : Option String := none
  deriving DecidableEq, Repr

/-- Outcome of a secure-transport negotiation: the error if any, the server
name the configuration ends up carrying, and whether OCSP revocation
verification was performed. -/
structure SecureOutcome where
  err : Option String
  serverName : String
  ocspPerformed : Bool
  deriving DecidableEq, Repr

/-- The hostname configureTLS derives from the address for SNI: the address
text up to its last colon, or all of it when it has none. -/
def hostnameForSNI (addr : String) : String :=
  let cs := addr.toList
  match cs.reverse.indexOf? ':' with
  | none => addr
  | some ri => String.mk (cs.take (cs.length - 1 - ri))

/-- Model of configureTLS: fill in the server name from the address when it
is unset, run the handshake, and perform OCSP revocation verification unless
certificate verification is disabled. -/
def configureTLS (addr : String) (config : TLSConfig) (env : SecureEnv) :
    SecureOutcome :=
  let serverName := if config.serverName = "" then hostnameForSNI addr
    else config.serverName
  match env.handshakeErr with
  | some e => ⟨some e, serverName, false⟩
  | none =>
    if config.insecureSkipVerify = false then
      match env.ocspErr with
      | some e => ⟨some e, serverName, true⟩
      | none => ⟨none, serverName, true⟩
    else ⟨none, serverName, false⟩

/-- Model of configureTLCP: the SNI fill-in and the OCSP verification blocks
are commented out in the source, so only the handshake runs. -/
def configureTLCP (_addr : String) (config : TLCPConfig) (env : SecureEnv) :
    SecureOutcome :=
  match env.handshakeErr with
  | some e => ⟨some e, config.serverName, false⟩
  | none => ⟨none, config.serverName, false⟩

/-- C9: the standard TLS path derives the SNI server name from the address
whenever none is configured and performs OCSP verification exactly when the
handshake succeeded and certificate verification is not disabled, while the
TLCP path always keeps the configured server name untouched and never
performs OCSP verification. -/
theorem tls_tlcp_asymmetry (addr : String) (env : SecureEnv) :
    (∀ config : TLSConfig,
      (configureTLS addr config env).serverName =
        (if config.serverName = "" then hostnameForSNI addr
          else config.serverName) ∧
      (configureTLS addr config env).ocspPerformed =
        (env.handshakeErr.isNone && !config.insecureSkipVerify)) ∧
    (∀ config : TLCPConfig,
      (configureTLCP addr config env).serverName = config.serverName ∧
      (configureTLCP addr config env).ocspPerformed = false) := by
  constructor
  · intro config
    cases hh : env.handshakeErr with
    | some e => simp [configureTLS, hh]
    | none =>
      cases hv : config.insecureSkipVerify with
      | false => cases ho : env.ocspErr <;> simp [configureTLS, hh, hv, ho]
      | true => simp [configureTLS, hh, hv]
  · intro config
    cases hh : env.handshakeErr <;> simp [configureTLCP, hh]

/-- The reason a handle is pinned: to a cursor or to a transaction. -/
inductive PinReason
  | cursor
  | transaction
  deriving DecidableEq, Repr

/-- The Connection handle: the owned connection (nil once released), the pin
reference count, and the registered cleanup callbacks.  The pool callbacks
passed to pin are instrumented as invocation counters so that theorems can
count how often each fired. -/
structure Handle where
  connection : Option Conn := none
  refCount : Nat := 0
  cleanupPoolRegistered : Option PinReason := none
  cleanupServerRegistered : Bool := false
  pinToCursorPoolCalls : Nat := 0
  pinToTransactionPoolCalls : Nat := 0
  unpinFromCursorPoolCalls : Nat := 0
  unpinFromTransactionPoolCalls : Nat := 0
  serverCleanupCalls : Nat := 0
  checkIns : Nat := 0

/-- Total invocations of the pool accounting callbacks that pin passes as
updatePoolFn, across both pin reasons. -/
def Handle.accountingCalls (h : Handle) : Nat :=
  h.pinToCursorPoolCalls + h.pinToTransactionPoolCalls

/-- Total invocations of the inverse cleanup callbacks that pin registers as
cleanupPoolFn, across both pin reasons. -/
def Handle.cleanupCalls (h : Handle) : Nat :=
  h.unpinFromCursorPoolCalls + h.unpinFromTransactionPoolCalls

/-- Handle-misuse errors surfaced by pin and unpin. -/
inductive HandleErr
  | pinnedAfterRelease (reason : PinReason)
  | unpinNotPinned (reason : PinReason)
  deriving DecidableEq, Repr

/-- Invoking the updatePoolFn accounting callback for the given reason. -/
def invokeUpdatePoolFn (h : Handle) (reason : PinReason) : Handle :=
  match reason with
  | .cursor => { h with pinToCursorPoolCalls := h.pinToCursorPoolCalls + 1 }
  | .transaction =>
      { h with pinToTransactionPoolCalls := h.pinToTransactionPoolCalls + 1 }

/-- Invoking the registered cleanupPoolFn callback for the given reason. -/
def invokeCleanupPoolFn (h : Handle) (reason : PinReason) : Handle :=
  match reason with
  | .cursor => { h with unpinFromCursorPoolCalls := h.unpinFromCursorPoolCalls + 1 }
  | .transaction =>
      { h with unpinFromTransactionPoolCalls := h.unpinFromTransactionPoolCalls + 1 }

/-- Model of the inner Connection.pin method, with the reason standing for
the pool callback pair the public wrappers pass in: on the first reference
only, invoke the pool accounting callback for the pin reason and register
its inverse as the cleanup callback; then increment the count.  The nil
branch models the method's own guard, which the public wrappers never reach
on a released handle: their call sites dereference the nil connection first
and fault (see Connection.PinToCursor below). -/
def Connection.pin (h : Handle) (reason : PinReason) : Handle × Option HandleErr :=
  match h.connection with
  | none => (h, some (.pinnedAfterRelease reason))
  | some _ =>
      let h1 := if h.refCount = 0 then
          { invokeUpdatePoolFn h reason with cleanupPoolRegistered := some reason }
        else h
      ({ h1 with refCount := h1.refCount + 1 }, none)

/-- Model of Connection.unpin: a no-op on a released handle, an error at
count zero, otherwise a plain decrement that invokes no callback. -/
def Connection.unpin (h : Handle) (reason : PinReason) : Handle × Option HandleErr :=
  match h.connection with
  | none => (h, none)
  | some _ =>
      if h.refCount = 0 then (h, some (.unpinNotPinned reason))
      else ({ h with refCount := h.refCount - 1 }, none)

/-- Model of Connection.cleanupReferences: check the connection back into the
pool, invoke and clear the registered pool cleanup callback and the server
cleanup callback, and null the owned connection. -/
def cleanupReferences (h : Handle) : Handle :=
  let h1 := { h with checkIns := h.checkIns + 1 }
  let h2 := match h1.cleanupPoolRegistered with
    | some reason =>
        { invokeCleanupPoolFn h1 reason with cleanupPoolRegistered := none }
    | none => h1
  let h3 := if h2.cleanupServerRegistered then
      { h2 with
        serverCleanupCalls := h2.serverCleanupCalls + 1,
        cleanupServerRegistered := false }
    else h2
  { h3 with connection := none }

/-- Model of Connection.Close on the handle: a no-op when already released
or while the pin count is positive; otherwise release the references. -/
def Connection.Close (h : Handle) : Handle :=
  if h.connection.isNone ∨ 0 < h.refCount then h else cleanupReferences h

/-- Model of Connection.Expire: close the underlying connection and release
the references, regardless of the pin count; a no-op once released. -/
def Connection.Expire (h : Handle) : Handle :=
  match h.connection with
  | none => h
  | some c => cleanupReferences { h with connection := some (closeConn c) }

/-- Model of Connection.PinToCursor: its call site evaluates
c.connection.pool to build the callback arguments before the nil guard
inside pin can run, so on a released handle it dereferences nil and faults
(modelled as none); on a live handle it delegates to pin with the cursor
pool callbacks. -/
def Connection.PinToCursor (h : Handle) : Option (Handle × Option HandleErr) :=
  match h.connection with
  | none => none
  | some _ => some (Connection.pin h .cursor)

/-- Model of Connection.PinToTransaction: like PinToCursor, its call site
dereferences the nil connection before the guard inside pin, so a released
handle faults (modelled as none); on a live handle it delegates to pin with
the transaction pool callbacks. -/
def Connection.PinToTransaction (h : Handle) : Option (Handle × Option HandleErr) :=
  match h.connection with
  | none => none
  | some _ => some (Connection.pin h .transaction)

/-- Model of Connection.UnpinFromCursor: it passes only the reason string,
so unpin's own nil guard is reached and a released handle is a safe no-op. -/
def Connection.UnpinFromCursor (h : Handle) : Handle × Option HandleErr :=
  Connection.unpin h .cursor

/-- Model of Connection.UnpinFromTransaction: like UnpinFromCursor, a
released handle is a safe no-op. -/
def Connection.UnpinFromTransaction (h : Handle) : Handle × Option HandleErr :=
  Connection.unpin h .transaction

/-- A pin or unpin call in a trace. -/
inductive PinOp
  | pin (reason : PinReason)
  | unpin (reason : PinReason)
  deriving DecidableEq, Repr

/-- Run a sequence of pin and unpin calls on a handle, threading the state
and discarding the returned errors. -/
def runPinOps (h : Handle) : List PinOp → Handle
  | [] => h
  | .pin r :: rest => runPinOps (Connection.pin h r).1 rest
  | .unpin r :: rest => runPinOps (Connection.unpin h r).1 rest

/-- The number of transitions of the pin count from 0 to 1 along a pin and
unpin trace starting from the given count, on a live handle (where a pin
always succeeds and an unpin at count zero is rejected without change). -/
def countZeroToOne (rc : Nat) : List PinOp → Nat
  | [] => 0
  | .pin _ :: rest => (if rc = 0 then 1 else 0) + countZeroToOne (rc + 1) rest
  | .unpin _ :: rest => countZeroToOne (rc - 1) rest

/-- On a live handle, pin keeps the handle live, increments the count,
invokes the accounting callback exactly when the count was zero, and never
invokes a cleanup callback. -/
theorem pin_live (h : Handle) (c : Conn) (r : PinReason)
    (hc : h.connection = some c) :
    (Connection.pin h r).1.connection = some c ∧
    (Connection.pin h r).1.refCount = h.refCount + 1 ∧
    (Connection.pin h r).1.accountingCalls =
      h.accountingCalls + (if h.refCount = 0 then 1 else 0) ∧
    (Connection.pin h r).1.cleanupCalls = h.cleanupCalls := by
  refine ⟨?_, ?_, ?_, ?_⟩ <;>
    by_cases h0 : h.refCount = 0 <;>
    cases r <;>
    simp [Connection.pin, hc, h0, invokeUpdatePoolFn, Handle.accountingCalls,
      Handle.cleanupCalls] <;>
    omega

/-- On a live handle, unpin keeps the handle live, decrements the count
(truncating at zero, where it is rejected without change), and invokes no
callback at all, in particular not at a transition from count 1 to 0. -/
theorem unpin_live (h : Handle) (c : Conn) (r : PinReason)
    (hc : h.connection = some c) :
    (Connection.unpin h r).1.connection = some c ∧
    (Connection.unpin h r).1.refCount = h.refCount - 1 ∧
    (Connection.unpin h r).1.accountingCalls = h.accountingCalls ∧
    (Connection.unpin h r).1.cleanupCalls = h.cleanupCalls := by
  refine ⟨?_, ?_, ?_, ?_⟩ <;>
    by_cases h0 : h.refCount = 0 <;>
    simp [Connection.unpin, hc, h0, Handle.accountingCalls, Handle.cleanupCalls]

/-- C3 counterexample: pinning a live handle once and unpinning it makes the
pin count go from 0 to 1 and back from 1 to 0, yet no cleanup callback has
been invoked after that unpin; cleanup is deferred to the later release. -/
theorem unpin_to_zero_invokes_no_cleanup :
    (Connection.pin { connection := some {} } .cursor).1.refCount = 1 ∧
    (Connection.unpin (Connection.pin { connection := some {} } .cursor).1
      .cursor).1.refCount = 0 ∧
    (Connection.unpin (Connection.pin { connection := some {} } .cursor).1
      .cursor).1.cleanupCalls = 0 := by
  refine ⟨rfl, rfl, rfl⟩

/-- C3 amended: over any sequence of pin and unpin calls on a live handle,
the pool accounting callback fires exactly once per transition of the pin
count from 0 to 1 and the cleanup callback never fires during the sequence;
the cleanup callback fires exactly once at the subsequent release, when
Close runs with the count back at zero and a cleanup callback registered. -/
theorem accounting_per_zero_one_transition :
    (∀ (ops : List PinOp) (h : Handle) (c : Conn), h.connection = some c →
      (runPinOps h ops).accountingCalls =
        h.accountingCalls + countZeroToOne h.refCount ops ∧
      (runPinOps h ops).cleanupCalls = h.cleanupCalls) ∧
    (∀ h : Handle, h.connection.isSome = true → h.refCount = 0 →
      h.cleanupPoolRegistered.isSome = true →
      (Connection.Close h).cleanupCalls = h.cleanupCalls + 1) := by
  constructor
  · intro ops
    induction ops with
    | nil =>
        intro h c hc
        simp [runPinOps, countZeroToOne]
    | cons op rest ih =>
        intro h c hc
        cases op with
        | pin r =>
            obtain ⟨hconn, hrc, hacc, hclean⟩ := pin_live h c r hc
            obtain ⟨ih1, ih2⟩ := ih (Connection.pin h r).1 c hconn
            constructor
            · rw [runPinOps, ih1, hacc, hrc, countZeroToOne, Nat.add_assoc]
            · rw [runPinOps, ih2, hclean]
        | unpin r =>
            obtain ⟨hconn, hrc, hacc, hclean⟩ := unpin_live h c r hc
            obtain ⟨ih1, ih2⟩ := ih (Connection.unpin h r).1 c hconn
            constructor
            · rw [runPinOps, ih1, hacc, hrc, countZeroToOne]
            · rw [runPinOps, ih2, hclean]
  · intro h hlive h0 hreg
    obtain ⟨r, hr⟩ := Option.isSome_iff_exists.mp hreg
    have hnn : h.connection.isNone = false := by
      cases hcc : h.connection with
      | none => rw [hcc] at hlive; simp at hlive
      | some c => simp [hcc]
    by_cases hcs : h.cleanupServerRegistered = true <;>
      cases r <;>
      simp [Connection.Close, cleanupReferences, invokeCleanupPoolFn, hnn, h0,
        hr, hcs, Handle.cleanupCalls] <;>
      omega

/-- Witness for the amended C3: a cursor pin, a transaction pin and two
unpins fire the accounting callback once and the cleanup callback not at
all, and the following Close fires the cleanup callback once. -/
theorem accounting_per_zero_one_transition_witness :
    (runPinOps { connection := some {} }
        [.pin .cursor, .pin .transaction, .unpin .cursor,
          .unpin .transaction]).accountingCalls = 1 ∧
    (runPinOps { connection := some {} }
        [.pin .cursor, .pin .transaction, .unpin .cursor,
          .unpin .transaction]).cleanupCalls = 0 ∧
    (Connection.Close
        { connection := some {}, cleanupPoolRegistered := some .cursor }).cleanupCalls =
      1 := by
  refine ⟨?_, ?_, ?_⟩
  · exact (accounting_per_zero_one_transition.1
      [.pin .cursor, .pin .transaction, .unpin .cursor, .unpin .transaction]
      { connection := some {} } {} rfl).1
  · exact (accounting_per_zero_one_transition.1
      [.pin .cursor, .pin .transaction, .unpin .cursor, .unpin .transaction]
      { connection := some {} } {} rfl).2
  · exact accounting_per_zero_one_transition.2
      { connection := some {}, cleanupPoolRegistered := some .cursor } rfl rfl rfl

/-- An error surfaced by a handle read or write: the distinguished
connection-closed error of the pool, or a wrapped ConnectionError from the
underlying connection. -/
inductive HandleOpErr
  | errConnectionClosed
  | wrapped (e : ConnectionError)
  deriving DecidableEq, Repr

/-- Model of Connection.Write on the handle: report the closed condition on
a released handle, else delegate to writeWireMessage. -/
def Connection.Write (h : Handle) (ctx : Ctx) (sockErr : Option NetErrKind)
    (aborted : Bool) : Handle × Option HandleOpErr :=
  match h.connection with
  | none => (h, some .errConnectionClosed)
  | some c =>
      let r := writeWireMessage c ctx sockErr aborted
      ({ h with connection := some r.conn }, r.err.map .wrapped)

/-- Model of Connection.Read on the handle: report the closed condition on a
released handle, else delegate to readWireMessage. -/
def Connection.Read (h : Handle) (ctx : Ctx) (s : NetStream) (aborted : Bool) :
    Handle × Option (List Nat) × Option HandleOpErr :=
  match h.connection with
  | none => (h, none, some .errConnectionClosed)
  | some c =>
      let r := readWireMessage c ctx s aborted
      ({ h with connection := some r.conn }, r.dst, r.err.map .wrapped)

/-- Model of Connection.Description on the handle: the empty description on
a released handle, else the owned description. -/
def Connection.Description (h : Handle) : ServerDesc :=
  match h.connection with
  | none => {}
  | some c => c.desc

/-- Model of Connection.Stale.  The source reads c.connection.pool with no
nil check, so on a released handle the access dereferences nil and faults,
modelled as none.  pool.stale itself is outside src/ and is modelled from
the spec: a connection is stale when its generation differs from the pool's
current generation for its scope. -/
def Connection.Stale (h : Handle) (poolCurrentGeneration : Nat) : Option Bool :=
  match h.connection with
  | none => none
  | some c => some (decide (c.generation ≠ poolCurrentGeneration))

/-- Model of Connection.DriverConnectionID on the handle: it calls the owned
connection's accessor with no nil check, so a released handle dereferences
nil and faults, modelled as none. -/
def Connection.DriverConnectionID (h : Handle) : Option Int :=
  match h.connection with
  | none => none
  | some c => some c.driverConnectionID

/-- Modelled from the spec: append a 4-byte little-endian int32 to a byte
list (the append helpers of the wiremessage package, outside src/). -/
def appendInt32LE (dst : List Nat) (v : Int) : List Nat :=
  let u := (v % (2 ^ 32 : Int)).toNat
  dst ++ [u % 256, u / 256 % 256, u / 65536 % 256, u / 16777216 % 256]

/-- Modelled from the spec: wiremessage.ReadHeader parses the 16-byte header
of four little-endian int32 fields (length, request id, response-to, opcode)
and returns the remaining bytes; it fails when fewer than 16 bytes are
present (the wiremessage package is outside src/). -/
def readHeader (src : List Nat) :
    Option (Int × Int × Int × Int × List Nat) :=
  if src.length < 16 then none
  else some (int32OfUInt32 (leUInt32 (src.take 4)),
    int32OfUInt32 (leUInt32 ((src.drop 4).take 4)),
    int32OfUInt32 (leUInt32 ((src.drop 8).take 4)),
    int32OfUInt32 (leUInt32 ((src.drop 12).take 4)),
    src.drop 16)

/-- Modelled from the spec: the opcode marking a compressed envelope. -/
def opCompressed : Int := 2012

/-- Modelled from the spec: wiremessage.AppendHeaderStart records the index
where the header begins and appends a length placeholder, the request id,
the response-to field and the opcode. -/
def appendHeaderStart (dst : List Nat) (reqid respto opcode : Int) :
    Nat × List Nat :=
  (dst.length,
    appendInt32LE (appendInt32LE (appendInt32LE (appendInt32LE dst 0) reqid)
      respto) opcode)

/-- Modelled from the spec: the one-byte compressor identifier appended to a
compressed envelope. -/
def compressorIDByte : CompressorID → Nat
  | .noOp => 0
  | .snappy => 1
  | .zlib => 2
  | .zstd => 3

/-- Modelled from the spec: bsoncore.UpdateLength overwrites the 4 bytes at
the given index with the little-endian length. -/
def updateLength (dst : List Nat) (idx : Nat) (length : Int) : List Nat :=
  dst.take idx ++ appendInt32LE [] length ++ dst.drop (idx + 4)

/-- Errors surfaced by CompressWireMessage. -/
inductive CompressErr
  | errConnectionClosed
  | tooShortToCompress
  | compressFailed (e : String)
  deriving DecidableEq, Repr

/-- Model of Connection.CompressWireMessage, with the external
driver.CompressPayload collaborator passed as a function: a released handle
reports the closed condition and returns the destination unchanged; the
no-op compressor appends the source unchanged; otherwise the header is
parsed (failing when the source is shorter than 16 bytes, with the
destination unchanged) and a compressed envelope is emitted with its length
field patched. -/
def Connection.CompressWireMessage (h : Handle)
    (compressPayload : List Nat → Except String (List Nat))
    (src dst : List Nat) : List Nat × Option CompressErr :=
  match h.connection with
  | none => (dst, some .errConnectionClosed)
  | some c =>
      if c.compressor = .noOp then (dst ++ src, none)
      else
        match readHeader src with
        | none => (dst, some .tooShortToCompress)
        | some (_, reqid, respto, origcode, rem) =>
            let r := appendHeaderStart dst reqid respto opCompressed
            let dst1 := appendInt32LE r.2 origcode
            let dst2 := appendInt32LE dst1 (rem.length : Int)
            let dst3 := dst2 ++ [compressorIDByte c.compressor]
            match compressPayload rem with
            | .error e => ([], some (.compressFailed e))
            | .ok compressed =>
                let dst4 := dst3 ++ compressed
                (updateLength dst4 r.1 ((dst4.length - r.1 : Nat) : Int), none)

/-- C4: on a handle whose owned connection has been nulled by release,
Write, Read, CompressWireMessage, Description, Close, Expire and the unpin
operations are no-ops or report the closed condition — but Stale,
DriverConnectionID, PinToCursor and PinToTransaction dereference the nil
connection and fault (modelled as none), contradicting the claim that no
operation faults. -/
theorem released_handle_operations (h : Handle) (ctx : Ctx)
    (sockErr : Option NetErrKind) (s : NetStream) (aborted : Bool)
    (poolCurrentGeneration : Nat)
    (compressPayload : List Nat → Except String (List Nat)) (src dst : List Nat)
    (hnull : h.connection = none) :
    Connection.Write h ctx sockErr aborted = (h, some .errConnectionClosed) ∧
    Connection.Read h ctx s aborted = (h, none, some .errConnectionClosed) ∧
    Connection.CompressWireMessage h compressPayload src dst =
      (dst, some .errConnectionClosed) ∧
    Connection.Description h = {} ∧
    Connection.Close h = h ∧
    Connection.Expire h = h ∧
    Connection.UnpinFromCursor h = (h, none) ∧
    Connection.UnpinFromTransaction h = (h, none) ∧
    Connection.Stale h poolCurrentGeneration = none ∧
    Connection.DriverConnectionID h = none ∧
    Connection.PinToCursor h = none ∧
    Connection.PinToTransaction h = none := by
  refine ⟨?_, ?_, ?_, ?_, ?_, ?_, ?_, ?_, ?_, ?_, ?_, ?_⟩ <;>
    simp [Connection.Write, Connection.Read, Connection.CompressWireMessage,
      Connection.Description, Connection.Close, Connection.Expire,
      Connection.UnpinFromCursor, Connection.UnpinFromTransaction,
      Connection.unpin, Connection.Stale, Connection.DriverConnectionID,
      Connection.PinToCursor, Connection.PinToTransaction, hnull]

/-- Witness for C4 at the canonical released handle: the safe operations
report closed or no-op while Stale, DriverConnectionID and the public pin
operations fault. -/
theorem released_handle_operations_witness :
    Connection.Stale {} 0 = none ∧
    Connection.DriverConnectionID {} = none ∧
    Connection.PinToCursor {} = none ∧
    Connection.PinToTransaction {} = none ∧
    Connection.Write {} {} none false = ({}, some .errConnectionClosed) := by
  have h := released_handle_operations {} {} none ⟨[], .timeout⟩ false 0
    Except.ok [] [] rfl
  exact ⟨h.2.2.2.2.2.2.2.2.1, h.2.2.2.2.2.2.2.2.2.1, h.2.2.2.2.2.2.2.2.2.2.1,
    h.2.2.2.2.2.2.2.2.2.2.2, h.1⟩

/-- C10: with a live handle whose negotiated compressor is not the no-op
compressor, a source shorter than the 16-byte wire-message header makes
CompressWireMessage fail and leave the destination unchanged, emitting no
envelope; with the no-op compressor in effect the source bytes are appended
to the destination unchanged, whatever their length. -/
theorem compress_short_message_and_noop (h : Handle) (c : Conn)
    (compressPayload : List Nat → Except String (List Nat)) (src dst : List Nat)
    (hc : h.connection = some c) :
    (c.compressor ≠ .noOp → src.length < 16 →
      Connection.CompressWireMessage h compressPayload src dst =
        (dst, some .tooShortToCompress)) ∧
    (c.compressor = .noOp →
      Connection.CompressWireMessage h compressPayload src dst =
        (dst ++ src, none)) := by
  constructor
  · intro hnz hlen
    simp [Connection.CompressWireMessage, hc, hnz, readHeader, hlen]
  · intro hz
    simp [Connection.CompressWireMessage, hc, hz]

/-- Witness for C10: a zlib connection rejects an empty source while a no-op
connection appends the source to the destination. -/
theorem compress_short_message_and_noop_witness :
    Connection.CompressWireMessage { connection := some { compressor := .zlib } }
        Except.ok [] [7] = ([7], some .tooShortToCompress) ∧
    Connection.CompressWireMessage { connection := some {} } Except.ok [1, 2] [7] =
      ([7, 1, 2], none) :=
  ⟨(compress_short_message_and_noop { connection := some { compressor := .zlib } }
      { compressor := .zlib } Except.ok [] [7] rfl).1 (by decide) (by decide),
    (compress_short_message_and_noop { connection := some {} } {} Except.ok [1, 2]
      [7] rfl).2 rfl⟩

end MongoConn
